import Mathlib

/-!
Verification of the NVENC rate-control parameter resolver from
`source/ui/nvenc_shared.cpp` (obs-ffmpeg-encoder).

Shallow embedding notes:
* Machine integers (`int`, `int64_t`) are modelled as unbounded `Int`.
  All values handled by this module come from bounded UI sliders or from
  encoder option ranges far below the width of the machine types, so the
  narrowing casts (`static_cast<int>`) and 64-bit arithmetic never wrap in
  any reachable state; the embedding therefore uses exact integer
  arithmetic.
* `double` values (the quality-target percentage and the derived "cq"
  option) are modelled as `Rat`.  The only operations performed on them
  are division by 100, multiplication by 51 and a comparison with 0.
* The settings store (`obs_data_t`) is modelled as a flat record with one
  field per key this module reads or writes, mirroring `get_defaults`.
  The integer the store holds for an enumeration key is modelled as
  `Option E`: `some e` when the integer equals the numeric value of the
  enumerator `e` (the numbering lives in `nvenc_shared.hpp`), `none` when
  it equals none of them.  The `static_cast` + `switch` / map lookup in
  the source depends only on this information.
* `priv_data` (the encoder-private AVOption dictionary) is modelled as a
  record with one `Option`-valued field per option name this module
  writes; `none` means the option has not been written by this module
  ("unset" / left at the encoder default).  The h264 option names
  "spatial-aq"/"temporal-aq" and the generic names
  "spatial_aq"/"temporal_aq" are distinct dictionary keys and get
  distinct fields.
-/

namespace Nvenc

/-- Rate-control modes (`ratecontrolmode` in the header). -/
inductive ratecontrolmode where
  | CQP
  | VBR
  | VBR_HQ
  | CBR
  | CBR_HQ
  | CBR_LD_HQ
deriving DecidableEq, Repr

/-- Encoder presets (`preset` in the header). -/
inductive preset_t where
  | DEFAULT
  | SLOW
  | MEDIUM
  | FAST
  | HIGH_PERFORMANCE
  | HIGH_QUALITY
  | BLURAYDISC
  | LOW_LATENCY
  | LOW_LATENCY_HIGH_PERFORMANCE
  | LOW_LATENCY_HIGH_QUALITY
  | LOSSLESS
  | LOSSLESS_HIGH_PERFORMANCE
deriving DecidableEq, Repr

/-- B-frame reference modes (`b_ref_mode` in the header). -/
inductive b_ref_mode_t where
  | DISABLED
  | EACH
  | MIDDLE
deriving DecidableEq, Repr

/-- The `preset_to_opt` lookup table (nvenc_shared.cpp lines 96-109).  The
source map has a key for every enumerator, so it is a total function. -/
def preset_to_opt : preset_t → String
  | .DEFAULT => "default"
  | .SLOW => "slow"
  | .MEDIUM => "medium"
  | .FAST => "fast"
  | .HIGH_PERFORMANCE => "hp"
  | .HIGH_QUALITY => "hq"
  | .BLURAYDISC => "bd"
  | .LOW_LATENCY => "ll"
  | .LOW_LATENCY_HIGH_PERFORMANCE => "llhp"
  | .LOW_LATENCY_HIGH_QUALITY => "llhq"
  | .LOSSLESS => "lossless"
  | .LOSSLESS_HIGH_PERFORMANCE => "losslesshp"

/-- The `ratecontrolmode_to_opt` lookup table (lines 120-123). -/
def ratecontrolmode_to_opt : ratecontrolmode → String
  | .CQP => "constqp"
  | .VBR => "vbr"
  | .VBR_HQ => "vbr_hq"
  | .CBR => "cbr"
  | .CBR_HQ => "cbr_hq"
  | .CBR_LD_HQ => "cbr_ld_hq"

/-- The `b_ref_mode_to_opt` lookup table (lines 131-135). -/
def b_ref_mode_to_opt : b_ref_mode_t → String
  | .DISABLED => "disabled"
  | .EACH => "each"
  | .MIDDLE => "middle"

/-- Modelled from the spec: `is_tristate_default` lives in `utility.hpp`,
which is not under `src/`.  Spec section 3: TriState (int) is Default(-1) /
Disabled(0) / Enabled(1), so Default is the value -1. -/
def is_tristate_default (v : Int) : Bool := v == -1

/-- Modelled from the spec: `is_tristate_enabled` lives in `utility.hpp`,
which is not under `src/`.  Enabled is the value 1. -/
def is_tristate_enabled (v : Int) : Bool := v == 1

/-- State read and written by `override_update` (lines 137-165): the three
encoder options read back with `av_opt_get_int` ("rc-lookahead",
"surfaces", "async_depth"), plus the context fields it uses
(`max_b_frames`) and writes (`delay`). -/
structure OverrideState where
  rclookahead : Int
  surfaces : Int
  async_depth : Int
  max_b_frames : Int
  delay : Int
deriving DecidableEq, Repr

/-- Embedding of `obsffmpeg::nvenc::override_update` (lines 137-165).
When the read-back surface count is zero it derives a surface count from
the lookahead window and B-frame depth and stores it; it then clamps the
async depth into [3, surfaces - 1] and stores that as the delay. -/
def override_update (st : OverrideState) : OverrideState :=
  let surfaces :=
    if st.surfaces = 0 then
      let s0 := max 4 ((st.max_b_frames + 1) * 4)
      if 0 < st.rclookahead then
        max 1 (max s0 (st.rclookahead + (st.max_b_frames + 5)))
      else if 0 < st.max_b_frames then
        max 4 ((st.max_b_frames + 1) * 4)
      else
        4
    else st.surfaces
  { st with
    surfaces := surfaces
    delay := min (max st.async_depth 3) (surfaces - 1) }

/-- Clamp as used on line 164: `min(max(x, lo), hi)`. -/
def clamp (x lo hi : Int) : Int := min (max x lo) hi

/-- Surface derivation exactly as the claim words it (for refinement
comparison with `override_update`): the middle case is guarded by
`lookahead = 0`, where the source's `else if` only requires that the
first guard `lookahead > 0` failed. -/
def derive_claim (la b : Int) : Int :=
  if 0 < la then
    max 1 (max (max 4 ((b + 1) * 4)) (la + b + 5))
  else if la = 0 ∧ 0 < b then
    max 4 ((b + 1) * 4)
  else
    4

/-- The settings record (`obs_data_t`), restricted to the keys this module
reads or writes; field names follow the ST_ keys.  `bitrate` is the
auxiliary "bitrate" key written for the replay buffer. -/
structure Settings where
  preset : Option preset_t
  ratecontrol_mode : Option ratecontrolmode
  twopass : Int
  lookahead : Int
  adaptive_i : Int
  adaptive_b : Int
  bitrate_target : Int
  bitrate_maximum : Int
  buffersize : Int
  quality : Bool
  quality_minimum : Int
  quality_maximum : Int
  quality_target : Rat
  qp_i : Int
  qp_i_initial : Int
  qp_p : Int
  qp_p_initial : Int
  qp_b : Int
  qp_b_initial : Int
  aq_spatial : Int
  aq_temporal : Int
  aq_strength : Int
  bframes : Int
  bframe_referencemode : Option b_ref_mode_t
  zerolatency : Int
  weighted_prediction : Int
  nonreference_pframes : Int
  bitrate : Int
deriving DecidableEq

/-- The encoder-private option dictionary (`priv_data`), restricted to the
option names this module writes.  `none` means the option has not been
written ("unset").  `twopass` stands for the "2pass" key, `rc_lookahead`
for "rc-lookahead", `no_scenecut` for "no-scenecut", `bref_mode` for
"b_ref_mode"; `spatial_aq_h264`/`temporal_aq_h264` stand for the
dash-spelled "spatial-aq"/"temporal-aq" keys used for h264_nvenc, and
`spatial_aq`/`temporal_aq` for the underscore-spelled keys used for the
other codec variants. -/
structure PrivData where
  preset : Option String
  rc : Option String
  cbr : Option Int
  twopass : Option Int
  rc_lookahead : Option Int
  no_scenecut : Option Int
  b_adapt : Option Int
  cq : Option Rat
  init_qpI : Option Int
  init_qpP : Option Int
  init_qpB : Option Int
  spatial_aq_h264 : Option Int
  temporal_aq_h264 : Option Int
  spatial_aq : Option Int
  temporal_aq : Option Int
  aq_strength : Option Int
  zerolatency : Option Int
  nonref_p : Option Int
  weighted_pred : Option Int
  bref_mode : Option String
deriving DecidableEq

/-- The codec context (`AVCodecContext`), restricted to the top-level
fields this module touches, together with its private option dictionary. -/
structure AVCodecContext where
  bit_rate : Int
  rc_max_rate : Int
  rc_buffer_size : Int
  qmin : Int
  qmax : Int
  max_b_frames : Int
  delay : Int
  priv_data : PrivData
deriving DecidableEq

/-- A private option dictionary in which this module has written nothing. -/
def emptyPriv : PrivData :=
  { preset := none, rc := none, cbr := none, twopass := none
    rc_lookahead := none, no_scenecut := none, b_adapt := none, cq := none
    init_qpI := none, init_qpP := none, init_qpB := none
    spatial_aq_h264 := none, temporal_aq_h264 := none
    spatial_aq := none, temporal_aq := none, aq_strength := none
    zerolatency := none, nonref_p := none, weighted_pred := none
    bref_mode := none }

/-- A freshly allocated context: zeroed numeric fields and an untouched
private option dictionary. -/
def emptyCtx : AVCodecContext :=
  { bit_rate := 0, rc_max_rate := 0, rc_buffer_size := 0, qmin := 0
    qmax := 0, max_b_frames := 0, delay := 0, priv_data := emptyPriv }

/-- Embedding of `obsffmpeg::nvenc::get_defaults` (lines 167-204): the
default value of every settings key.  The quality toggle bool
(ST_RATECONTROL_QUALITY itself) is not given a default by the source, so
it keeps the store's default of false. -/
def get_defaults : Settings :=
  { preset := some .DEFAULT
    ratecontrol_mode := some .CBR_HQ
    twopass := -1
    lookahead := 0
    adaptive_i := -1
    adaptive_b := -1
    bitrate_target := 6000
    bitrate_maximum := 6000
    buffersize := 12000
    quality := false
    quality_minimum := 51
    quality_maximum := -1
    quality_target := 0
    qp_i := 21
    qp_i_initial := -1
    qp_p := 21
    qp_p_initial := -1
    qp_b := 21
    qp_b_initial := -1
    aq_spatial := -1
    aq_temporal := -1
    aq_strength := 8
    bframes := 2
    bframe_referencemode := some .DISABLED
    zerolatency := -1
    weighted_prediction := -1
    nonreference_pframes := -1
    bitrate := 0 }

/-- The five mode-dependent flags computed by the identical switch
statements in `modified_ratecontrol` (lines 217-233) and `update`
(lines 561-578): an unknown mode value hits no case and leaves every flag
false. -/
structure RcFlags where
  have_bitrate : Bool
  have_bitrate_max : Bool
  have_quality : Bool
  have_qp : Bool
  have_qp_init : Bool
deriving DecidableEq, Repr

/-- The switch on the rate-control mode shared by `modified_ratecontrol`
and `update`. -/
def rc_flags : Option ratecontrolmode → RcFlags
  | some .CQP => ⟨false, false, false, true, false⟩
  | some .CBR => ⟨true, false, false, false, false⟩
  | some .CBR_HQ => ⟨true, false, false, false, false⟩
  | some .CBR_LD_HQ => ⟨true, false, false, false, false⟩
  | some .VBR => ⟨true, true, true, false, true⟩
  | some .VBR_HQ => ⟨true, true, true, false, true⟩
  | none => ⟨false, false, false, false, false⟩

/-- Whether the mode is one of the CBR family, i.e. whether `update`
hits one of the three cases that overwrite the "cbr" option with 1
(lines 565-570). -/
def is_cbr_family : Option ratecontrolmode → Bool
  | some .CBR => true
  | some .CBR_HQ => true
  | some .CBR_LD_HQ => true
  | _ => false

/-- The quality-target conversion on line 625:
`obs_data_get_double(...) / 100.0 * 51.0`, doubles modelled as rationals. -/
def quality_target_convert (v : Rat) : Rat := v / 100 * 51

/-- Result of one `update` call: the (possibly modified) settings record,
the mutated context, and whether the weighted-prediction warning was
logged. -/
structure UpdateResult where
  settings : Settings
  context : AVCodecContext
  warn_weighted_pred : Bool
deriving DecidableEq

/-- Embedding of `obsffmpeg::nvenc::update` (lines 535-696).  The source
is a sequence of guarded writes; every option key and context field is
written by at most one statement, with two exceptions whose sequential
semantics the embedding keeps: the "cbr" option is set to 0 and then
overwritten with 1 inside the CBR cases of the mode switch (lines
560-570), collapsed here into its net value, and the "init_qpI/P/B"
options are written by the CQP block (lines 631-638) and then by the
qp-init block (lines 639-646), so the later qp-init write would win were
both flags ever set (they are mutually exclusive).  The embedding
therefore gives each field its final value directly; a guard that does
not fire leaves the field at its incoming value. -/
def update (s : Settings) (codecName : String) (ctx : AVCodecContext) :
    UpdateResult :=
  let f := rc_flags s.ratecontrol_mode
  let v := quality_target_convert s.quality_target
  let warn := decide (s.bframes ≠ 0) && is_tristate_enabled s.weighted_prediction
  let pd0 := ctx.priv_data
  { settings :=
      if f.have_bitrate then { s with bitrate := s.bitrate_target } else s
    context :=
      { ctx with
        priv_data :=
          { preset := s.preset.map preset_to_opt
            rc :=
              match s.ratecontrol_mode with
              | some m => some (ratecontrolmode_to_opt m)
              | none => pd0.rc
            cbr := some (if is_cbr_family s.ratecontrol_mode then 1 else 0)
            twopass :=
              if 0 ≤ s.twopass then some (if s.twopass = 0 then 0 else 1)
              else pd0.twopass
            rc_lookahead := some s.lookahead
            no_scenecut :=
              if 0 < s.lookahead then
                if is_tristate_default s.adaptive_i then pd0.no_scenecut
                else some s.adaptive_i
              else pd0.no_scenecut
            b_adapt :=
              if 0 < s.lookahead then
                if codecName = "h264_nvenc" then pd0.b_adapt
                else if is_tristate_default s.adaptive_b then pd0.b_adapt
                else some s.adaptive_b
              else pd0.b_adapt
            cq := if 0 < v then some v else pd0.cq
            init_qpI :=
              if f.have_qp_init then some s.qp_i_initial
              else if f.have_qp then some s.qp_i
              else pd0.init_qpI
            init_qpP :=
              if f.have_qp_init then some s.qp_p_initial
              else if f.have_qp then some s.qp_p
              else pd0.init_qpP
            init_qpB :=
              if f.have_qp_init then some s.qp_b_initial
              else if f.have_qp then some s.qp_b
              else pd0.init_qpB
            spatial_aq_h264 :=
              if codecName = "h264_nvenc" then
                if is_tristate_default s.aq_spatial then pd0.spatial_aq_h264
                else some s.aq_spatial
              else pd0.spatial_aq_h264
            temporal_aq_h264 :=
              if codecName = "h264_nvenc" then
                if is_tristate_default s.aq_temporal then pd0.temporal_aq_h264
                else some s.aq_temporal
              else pd0.temporal_aq_h264
            spatial_aq :=
              if codecName = "h264_nvenc" then pd0.spatial_aq
              else
                if is_tristate_default s.aq_spatial then pd0.spatial_aq
                else some s.aq_spatial
            temporal_aq :=
              if codecName = "h264_nvenc" then pd0.temporal_aq
              else
                if is_tristate_default s.aq_temporal then pd0.temporal_aq
                else some s.aq_temporal
            aq_strength :=
              if is_tristate_enabled s.aq_spatial then some s.aq_strength
              else pd0.aq_strength
            zerolatency :=
              if is_tristate_default s.zerolatency then pd0.zerolatency
              else some s.zerolatency
            nonref_p :=
              if is_tristate_default s.nonreference_pframes then pd0.nonref_p
              else some s.nonreference_pframes
            weighted_pred :=
              if warn then some 0
              else if is_tristate_default s.weighted_prediction then
                pd0.weighted_pred
              else some s.weighted_prediction
            bref_mode :=
              match s.bframe_referencemode with
              | some m => some (b_ref_mode_to_opt m)
              | none => pd0.bref_mode }
        bit_rate :=
          if f.have_bitrate then s.bitrate_target * 1000 else ctx.bit_rate
        rc_max_rate :=
          if f.have_bitrate_max then s.bitrate_maximum * 1000 else ctx.rc_max_rate
        rc_buffer_size :=
          if f.have_bitrate || f.have_bitrate_max then s.buffersize * 1000
          else ctx.rc_buffer_size
        qmin :=
          if f.have_quality && s.quality then s.quality_minimum else ctx.qmin
        qmax :=
          if f.have_quality && s.quality then
            if 0 ≤ s.quality_minimum then s.quality_maximum else ctx.qmax
          else ctx.qmax
        max_b_frames := s.bframes }
    warn_weighted_pred := warn }

/-- The mode-dependent field set, at the granularity the claims use. -/
structure FieldVis where
  bitrate_target : Bool
  bitrate_maximum : Bool
  buffersize : Bool
  quality_minimum : Bool
  quality_maximum : Bool
  quality_target : Bool
  qp : Bool
  qp_init : Bool
deriving DecidableEq, Repr

/-- Embedding of the visibility computation of `modified_ratecontrol`
(lines 206-254): which mode-dependent fields are made visible.  It is by
construction a pure function of the rate-control mode. -/
def modified_ratecontrol (rc : Option ratecontrolmode) : FieldVis :=
  let f := rc_flags rc
  { bitrate_target := f.have_bitrate
    bitrate_maximum := f.have_bitrate_max
    buffersize := f.have_bitrate || f.have_bitrate_max
    quality_minimum := f.have_quality
    quality_maximum := f.have_quality
    quality_target := f.have_quality
    qp := f.have_qp
    qp_init := f.have_qp_init }

/-- Which of the mode-dependent fields `update` actually writes, with the
guards read straight off lines 601-646: bitrate fields by the mode flags;
qmin additionally requires the quality toggle, qmax further requires a
non-negative quality minimum; the converted quality target is emitted
whenever it is positive, with no mode guard at all. -/
def appliedFields (s : Settings) : FieldVis :=
  let f := rc_flags s.ratecontrol_mode
  { bitrate_target := f.have_bitrate
    bitrate_maximum := f.have_bitrate_max
    buffersize := f.have_bitrate || f.have_bitrate_max
    quality_minimum := f.have_quality && s.quality
    quality_maximum :=
      f.have_quality && s.quality && decide (0 ≤ s.quality_minimum)
    quality_target := decide (0 < quality_target_convert s.quality_target)
    qp := f.have_qp
    qp_init := f.have_qp_init }

/-- Claim C1 (counterexample): the claim's case split is wrong for a
negative read-back lookahead.  At lookahead = -1, max_b_frames = 1 and an
unset surface count, `override_update` takes the `else if
(max_b_frames > 0)` branch and derives 8 surfaces, while the claim's
"lookahead = 0 and max_b_frames > 0" case does not apply, so the claim
predicts the fallback value 4. -/
theorem override_update_surfaces_negative_lookahead_counterexample :
    (override_update ⟨-1, 0, 0, 1, 0⟩).surfaces = 8 ∧
    derive_claim (-1) 1 = 4 ∧ (8 : Int) ≠ 4 := by
  decide

/-- Claim C1 (amended): for every encoder context whose read-back surface
count is zero, `override_update` sets the surface count to
max(1, max(max(4, (b+1)*4), la + b + 5)) when the lookahead la > 0, to
max(4, (b+1)*4) when la ≤ 0 and the B-frame count b > 0, and to 4
otherwise; in particular derive(0,0) = 4, derive(0,2) = 12 and
derive(10,2) = 17. -/
theorem override_update_surfaces_derivation :
    (∀ st : OverrideState, st.surfaces = 0 →
      (override_update st).surfaces =
        if 0 < st.rclookahead then
          max 1 (max (max 4 ((st.max_b_frames + 1) * 4))
            (st.rclookahead + st.max_b_frames + 5))
        else if 0 < st.max_b_frames then
          max 4 ((st.max_b_frames + 1) * 4)
        else
          4) ∧
    (override_update ⟨0, 0, 0, 0, 0⟩).surfaces = 4 ∧
    (override_update ⟨0, 0, 0, 2, 0⟩).surfaces = 12 ∧
    (override_update ⟨10, 0, 0, 2, 0⟩).surfaces = 17 := by
  refine ⟨?_, by decide, by decide, by decide⟩
  intro st h
  simp only [override_update, h, if_pos]
  simp only [max_def, min_def]
  split_ifs <;> omega

/-- Claim C1 (witness). -/
theorem override_update_surfaces_derivation_witness :
    (override_update ⟨5, 0, 0, 1, 0⟩).surfaces =
      if (0 : Int) < 5 then
        max 1 (max (max 4 ((1 + 1) * 4)) (5 + 1 + 5))
      else if (0 : Int) < 1 then
        max 4 ((1 + 1) * 4)
      else
        4 := by
  exact override_update_surfaces_derivation.1 ⟨5, 0, 0, 1, 0⟩ rfl

/-- Claim C2: after `override_update` the delay equals
clamp(async_depth, 3, surfaces - 1) where the surface count is the
possibly just-derived one; in particular clamp(0, 3, 4-1) = 3 and
clamp(20, 3, 10-1) = 9. -/
theorem override_update_delay_clamp :
    (∀ st : OverrideState,
      (override_update st).delay =
        clamp st.async_depth 3 ((override_update st).surfaces - 1)) ∧
    clamp 0 3 (4 - 1) = 3 ∧ clamp 20 3 (10 - 1) = 9 := by
  refine ⟨fun st => rfl, by decide, by decide⟩

/-- Claim C3 (counterexample): the claimed invariant 3 ≤ delay fails when
the user pre-set a non-zero surface count below 4.  With surfaces
pre-set to 2 and async depth 0, the derivation is skipped and the delay
becomes min(max(0,3), 2-1) = 1 < 3. -/
theorem override_update_delay_low_surfaces_counterexample :
    (override_update ⟨0, 2, 0, 0, 0⟩).delay = 1 ∧
    ¬ (3 ≤ (override_update ⟨0, 2, 0, 0, 0⟩).delay) := by
  decide

/-- Claim C3 (amended): for every initial state the resulting delay is at
most surfaces - 1, and whenever the initial surface count is zero (so the
derivation runs, always producing at least 4 surfaces) or is at least 4,
the resulting delay is also at least 3. -/
theorem override_update_delay_bounds :
    (∀ st : OverrideState,
      (override_update st).delay ≤ (override_update st).surfaces - 1) ∧
    (∀ st : OverrideState, st.surfaces = 0 ∨ 4 ≤ st.surfaces →
      3 ≤ (override_update st).delay) := by
  constructor
  · intro st
    simp only [override_update]
    exact min_le_right _ _
  · intro st h
    simp only [override_update]
    simp only [max_def, min_def]
    split_ifs <;> omega

/-- Claim C3 (witness). -/
theorem override_update_delay_bounds_witness :
    (override_update ⟨0, 0, 0, 2, 7⟩).delay ≤
        (override_update ⟨0, 0, 0, 2, 7⟩).surfaces - 1 ∧
    3 ≤ (override_update ⟨0, 0, 0, 2, 7⟩).delay := by
  exact ⟨override_update_delay_bounds.1 ⟨0, 0, 0, 2, 7⟩,
    override_update_delay_bounds.2 ⟨0, 0, 0, 2, 7⟩ (Or.inl rfl)⟩

/-- Claim C4 (counterexample): `update` does write the settings record.
With the default settings (mode CBR_HQ, a bitrate mode), it stores the
bitrate target under the auxiliary "bitrate" key (line 605, replay-buffer
support), changing that key from its default 0 to 6000. -/
theorem update_settings_bitrate_write_counterexample :
    (update get_defaults "h264_nvenc" emptyCtx).settings.bitrate = 6000 ∧
    get_defaults.bitrate = 0 ∧
    (update get_defaults "h264_nvenc" emptyCtx).settings ≠ get_defaults := by
  refine ⟨rfl, rfl, by decide⟩

/-- Claim C4 (amended): `update` reads the settings record and leaves it
unchanged except for the auxiliary "bitrate" key, which it overwrites
with the bitrate target exactly when the selected rate-control mode is a
bitrate mode (the CBR or VBR families). -/
theorem update_settings_effect :
    ∀ (s : Settings) (c : String) (ctx : AVCodecContext),
      (update s c ctx).settings =
        if (rc_flags s.ratecontrol_mode).have_bitrate then
          { s with bitrate := s.bitrate_target }
        else s := by
  intro s c ctx
  rfl

/-- Claim C6: whenever the B-frame count taken from the settings is
non-zero and the weighted-prediction tri-state is Enabled, `update` logs
a warning and emits the "weighted_pred" option as 0; in every other case
there is no warning and the tri-state is applied as requested: emitted
with the requested value when it is not Default, left unwritten when it
is Default. -/
theorem update_weighted_prediction :
    ∀ (s : Settings) (c : String),
      ((update s c emptyCtx).warn_weighted_pred,
        (update s c emptyCtx).context.priv_data.weighted_pred) =
        if decide (s.bframes ≠ 0) && is_tristate_enabled s.weighted_prediction
        then (true, some 0)
        else if is_tristate_default s.weighted_prediction then (false, none)
        else (false, some s.weighted_prediction) := by
  intro s c
  simp only [update, emptyCtx, emptyPriv]
  split_ifs <;> simp_all

/-- Claim C7: after `update` the auxiliary "cbr" option is 1 exactly when
the selected rate-control mode is one of CBR, CBR_HQ, CBR_LD_HQ, and 0
for every other mode value, whatever the option held before the call
(the source resets it to 0 before the mode switch). -/
theorem update_cbr_flag :
    ∀ (s : Settings) (c : String) (ctx : AVCodecContext),
      (update s c ctx).context.priv_data.cbr =
        some (if is_cbr_family s.ratecontrol_mode then 1 else 0) := by
  intro s c ctx
  rfl

/-- Claim C8: for every quality-target value v in [0,100], `update`
converts it with v/100 × 51 and emits the result as the floating-point
"cq" option exactly when the converted value is positive; and
convert(0) = 0, convert(100) = 51, convert(50) = 25.5. -/
theorem update_quality_target_cq :
    (∀ (s : Settings) (c : String), 0 ≤ s.quality_target →
      s.quality_target ≤ 100 →
      (update s c emptyCtx).context.priv_data.cq =
        if 0 < quality_target_convert s.quality_target then
          some (quality_target_convert s.quality_target)
        else none) ∧
    quality_target_convert 0 = 0 ∧
    quality_target_convert 100 = 51 ∧
    quality_target_convert 50 = 51 / 2 := by
  refine ⟨?_, by norm_num [quality_target_convert],
    by norm_num [quality_target_convert], by norm_num [quality_target_convert]⟩
  intro s c h0 h100
  simp only [update, emptyCtx, emptyPriv]

/-- Claim C8 (witness). -/
theorem update_quality_target_cq_witness :
    (update { get_defaults with quality_target := 50 } "hevc_nvenc"
        emptyCtx).context.priv_data.cq =
      if 0 < quality_target_convert 50 then some (quality_target_convert 50)
      else none := by
  exact update_quality_target_cq.1 { get_defaults with quality_target := 50 }
    "hevc_nvenc" (by norm_num) (by norm_num)

/-- Claim C9: the adaptive-I tri-state is emitted (as the "no-scenecut"
option) exactly when it is not Default and the lookahead is positive; the
adaptive-B tri-state is emitted (as the "b_adapt" option) exactly when it
is not Default, the lookahead is positive and the codec variant is not
"h264_nvenc".  When the lookahead is 0 neither option is written. -/
theorem update_adaptive_emission :
    ∀ (s : Settings) (c : String),
      ((update s c emptyCtx).context.priv_data.no_scenecut =
        if decide (0 < s.lookahead) && !is_tristate_default s.adaptive_i then
          some s.adaptive_i
        else none) ∧
      ((update s c emptyCtx).context.priv_data.b_adapt =
        if decide (0 < s.lookahead) && !(decide (c = "h264_nvenc")) &&
            !is_tristate_default s.adaptive_b then
          some s.adaptive_b
        else none) := by
  intro s c
  constructor <;>
    simp only [update, emptyCtx, emptyPriv] <;>
    split_ifs <;> simp_all <;> omega

/-- Claim C10: when the settings hold a rate-control mode value that is
none of the six defined enumerators, `update` leaves the "rc" option as
it was (never sets it), still forces the "cbr" option to 0, and leaves
bit_rate, rc_max_rate, rc_buffer_size, qmin, qmax and the
"init_qpI/P/B" options untouched. -/
theorem update_unknown_ratecontrol_mode :
    ∀ (s : Settings) (c : String) (ctx : AVCodecContext),
      s.ratecontrol_mode = none →
      (update s c ctx).context.priv_data.rc = ctx.priv_data.rc ∧
      (update s c ctx).context.priv_data.cbr = some 0 ∧
      (update s c ctx).context.bit_rate = ctx.bit_rate ∧
      (update s c ctx).context.rc_max_rate = ctx.rc_max_rate ∧
      (update s c ctx).context.rc_buffer_size = ctx.rc_buffer_size ∧
      (update s c ctx).context.qmin = ctx.qmin ∧
      (update s c ctx).context.qmax = ctx.qmax ∧
      (update s c ctx).context.priv_data.init_qpI = ctx.priv_data.init_qpI ∧
      (update s c ctx).context.priv_data.init_qpP = ctx.priv_data.init_qpP ∧
      (update s c ctx).context.priv_data.init_qpB = ctx.priv_data.init_qpB := by
  intro s c ctx h
  simp [update, h, rc_flags, is_cbr_family]

/-- Claim C10 (witness). -/
theorem update_unknown_ratecontrol_mode_witness :
    (update { get_defaults with ratecontrol_mode := none } "h264_nvenc"
        emptyCtx).context.priv_data.rc = emptyCtx.priv_data.rc ∧
    (update { get_defaults with ratecontrol_mode := none } "h264_nvenc"
        emptyCtx).context.priv_data.cbr = some 0 ∧
    (update { get_defaults with ratecontrol_mode := none } "h264_nvenc"
        emptyCtx).context.bit_rate = emptyCtx.bit_rate := by
  have h := update_unknown_ratecontrol_mode
    { get_defaults with ratecontrol_mode := none } "h264_nvenc" emptyCtx rfl
  exact ⟨h.1, h.2.1, h.2.2.1⟩

/-- Claim C5 (counterexample): visibility does not match the applied set
exactly.  In CBR mode the quality-target field is hidden, yet with a
stored quality target of 50 `update` still emits the "cq" option
(= 50/100 × 51 = 25.5): the cq block on lines 624-629 carries no mode
guard. -/
theorem update_cq_hidden_mode_counterexample :
    (update
        { get_defaults with
          ratecontrol_mode := some ratecontrolmode.CBR
          quality_target := 50 }
        "h264_nvenc" emptyCtx).context.priv_data.cq =
      some (51 / 2) ∧
    (modified_ratecontrol (some ratecontrolmode.CBR)).quality_target = false := by
  constructor
  · norm_num [update, emptyCtx, emptyPriv, quality_target_convert]
  · rfl

/-- Claim C5 (amended): visibility is a pure function of the rate-control
mode (CQP shows the QP group; the CBR family shows bitrate target plus
buffer size; the VBR family shows bitrate target, bitrate maximum, buffer
size, the quality group and the initial-QP fields), and the set of fields
`update` writes matches the visible set except that: the quality
minimum/maximum, though visible for the VBR family, are applied only when
the quality toggle is on (qmax further requires a non-negative quality
minimum), and the converted quality target is emitted for every mode
exactly when it is positive.  The remaining conjuncts tie `appliedFields`
to the observable effect of `update` on a fresh context. -/
theorem applied_matches_visible_fields :
    (∀ s : Settings,
      appliedFields s =
        { modified_ratecontrol s.ratecontrol_mode with
            quality_minimum :=
              (modified_ratecontrol s.ratecontrol_mode).quality_minimum &&
                s.quality
            quality_maximum :=
              (modified_ratecontrol s.ratecontrol_mode).quality_maximum &&
                s.quality && decide (0 ≤ s.quality_minimum)
            quality_target :=
              decide (0 < quality_target_convert s.quality_target) }) ∧
    (∀ (s : Settings) (c : String),
      ((update s c emptyCtx).context.priv_data.cq).isSome =
        (appliedFields s).quality_target) ∧
    (∀ (s : Settings) (c : String),
      ((update s c emptyCtx).context.priv_data.init_qpI).isSome =
        ((appliedFields s).qp || (appliedFields s).qp_init)) ∧
    (∀ (s : Settings) (c : String),
      (update s c emptyCtx).context.bit_rate =
        if (appliedFields s).bitrate_target then s.bitrate_target * 1000
        else 0) ∧
    (∀ (s : Settings) (c : String),
      (update s c emptyCtx).context.rc_max_rate =
        if (appliedFields s).bitrate_maximum then s.bitrate_maximum * 1000
        else 0) ∧
    (∀ (s : Settings) (c : String),
      (update s c emptyCtx).context.rc_buffer_size =
        if (appliedFields s).buffersize then s.buffersize * 1000 else 0) ∧
    (∀ (s : Settings) (c : String),
      (update s c emptyCtx).context.qmin =
        if (appliedFields s).quality_minimum then s.quality_minimum else 0) ∧
    (∀ (s : Settings) (c : String),
      (update s c emptyCtx).context.qmax =
        if (appliedFields s).quality_maximum then s.quality_maximum else 0) := by
  refine ⟨fun s => rfl, ?_, ?_, ?_, ?_, ?_, ?_, ?_⟩ <;>
    intro s c <;>
    simp only [update, appliedFields, modified_ratecontrol, emptyCtx,
      emptyPriv] <;>
    split_ifs <;> simp_all <;> omega

end Nvenc
